import Mathlib

/-!
Shallow embedding of the ClickHouse Vault database plugin
(`clickhouse.go`, package `clickhouse`) for checking its natural-language
specification.  The database is modelled as an oracle (`Env`) answering
each round trip the Go code performs: connection acquisition, the two
`QueryRowContext` probes, `BeginTx`, per-statement execution and `Commit`.
Every lifecycle operation returns a `RunResult` carrying the returned
error together with an execution trace (which bound SQL statements were
executed, whether a transaction was started / committed, whether the
shared handle was closed).  The string helpers used by the Go code
(`strings.Split`, `strings.TrimSpace`, `strings.Replace(_, _, _, -1)`)
are embedded as structurally recursive functions on character lists so
that every definition evaluates inside the kernel.
-/

namespace CHPlugin

/-- `strings.Split(s, ";")` on the character level: splitting on the
one-character separator `;` (the only separator `clickhouse.go` uses). -/
def splitSemi : List Char → List (List Char)
  | [] => [[]]
  | c :: cs =>
    match splitSemi cs with
    | [] => [[c]]
    | h :: t => if c = ';' then [] :: h :: t else (c :: h) :: t

/-- `strings.Split(s, ";")`. -/
def goSplitSemi (s : String) : List String := (splitSemi s.data).map (fun l => ⟨l⟩)

/-- The ASCII whitespace recognized by `strings.TrimSpace` (the
statement templates are ASCII; exotic Unicode spaces are not modelled). -/
def isSpaceChar (c : Char) : Bool :=
  c = ' ' || c = '\t' || c = '\n' || c = '\r' || c = '\x0b' || c = '\x0c'

/-- Drop leading whitespace. -/
def trimLeftChars : List Char → List Char
  | [] => []
  | c :: cs => if isSpaceChar c then trimLeftChars cs else c :: cs

/-- `strings.TrimSpace`. -/
def goTrimSpace (s : String) : String :=
  ⟨(trimLeftChars (trimLeftChars s.data.reverse).reverse)⟩

/-- `strings.Replace(s, p, r, -1)` on character lists: replace every
leftmost non-overlapping occurrence of `p` by `r`.  The fuel argument
(instantiated with the length of the subject) only makes the recursion
structural. -/
def replaceAllFuel (p r : List Char) : Nat → List Char → List Char
  | 0, s => s
  | _+1, [] => []
  | n+1, c :: cs =>
    if p ≠ [] ∧ p.isPrefixOf (c :: cs) then
      r ++ replaceAllFuel p r n ((c :: cs).drop p.length)
    else
      c :: replaceAllFuel p r n cs

/-- Replace every leftmost non-overlapping occurrence of `p` in `s` by `r`. -/
def replaceAll (p r s : List Char) : List Char := replaceAllFuel p r s.length s

/-- `strings.Replace(s, pat, rep, -1)`. -/
def goReplaceAll (s pat rep : String) : String := ⟨replaceAll pat.data rep.data s.data⟩

/-- Outcome of a `QueryRowContext(...).Scan(&b)` round trip: `noRows`
models `sql.ErrNoRows`, `other` any other driver error string. -/
inductive DbErr where
  | noRows
  | other (msg : String)
deriving DecidableEq

/-- The database / collaborator oracle.  Each field answers one kind of
round trip issued by `clickhouse.go`:
* `connErr` — `getConnection` (some = the acquisition error);
* `userExistsResp` — the existence pre-check
  `SELECT c > 0 AS exists FROM ( SELECT count() AS c FROM system.users WHERE name='<u>' );`
  for a given username (`.ok b` = the scan set `b`, `.error .noRows` = `sql.ErrNoRows`);
* `clusterResp` — the cluster probe
  `SELECT COUNT() > 0 as existCluster FROM system.macros where macro = 'cluster';`;
* `usernameGen` — `usernameProducer.Generate(req.UsernameConfig)`;
* `beginTxErr` — `db.BeginTx`;
* `execErr` — executing one bound SQL string (`dbtxn.ExecuteTxQueryDirect`
  inside a transaction, or `db.ExecContext` for the default drop), keyed by
  the exact SQL text: `some e` = the driver error string `e`;
* `commitErr` — `tx.Commit()`. -/
structure Env where
  connErr : Option String
  userExistsResp : String → Except DbErr Bool
  clusterResp : Except DbErr Bool
  usernameGen : Except String String
  beginTxErr : Option String
  execErr : String → Option String
  commitErr : Option String

/-- Go constant `onCluster`. -/
def onCluster : String := "ON CLUSTER '{cluster}'"

/-- Go constant `defaultChangePasswordStatement` (note: it ends with `;`). -/
def defaultChangePasswordStatement : String :=
  "ALTER USER \"{{username}}\" IDENTIFIED BY '{{password}}';"

/-- The SDK sentinel `dbutil.ErrEmptyCreationStatement`. -/
def errEmptyCreationStatement : String := "empty creation statement"

/-- The existence pre-check SQL text built by `fmt.Sprintf` in
`changeUserPassword` and `defaultDeleteUser`. -/
def existsQuery (username : String) : String :=
  "SELECT c > 0 AS exists FROM ( SELECT count() AS c FROM system.users WHERE name='"
    ++ username ++ "' );"

/-- The cluster probe SQL text issued by `isClusterExist`. -/
def clusterQuery : String :=
  "SELECT COUNT() > 0 as existCluster FROM system.macros where macro = 'cluster';"

/-- The drop SQL text built by `fmt.Sprintf` in `defaultDeleteUser`. -/
def dropQuery (username reqCluster : String) : String :=
  "DROP USER IF EXISTS \"" ++ username ++ "\" " ++ reqCluster ++ ";"

/-- The parameter map `m` passed to `dbtxn.ExecuteTxQueryDirect`:
`name`, `username` (both the generated / requested username) and, for
create and rotate, `password`.  `customDeleteUser` binds no password. -/
structure Bindings where
  name : String
  username : String
  password : Option String
deriving DecidableEq

/-- `dbtxn.parseQuery`: replaces each `{{key}}` placeholder with its bound
value (`strings.Replace(..., -1)`).  Go iterates the map in unspecified
order; the model fixes the order name, username, password (the three
placeholders do not overlap). -/
def parseQuery (b : Bindings) (tpl : String) : String :=
  let t := goReplaceAll tpl "{{name}}" b.name
  let t := goReplaceAll t "{{username}}" b.username
  match b.password with
  | some p => goReplaceAll t "{{password}}" p
  | none => t

/-- Result of one lifecycle call: the returned error (`none` = success),
the bound SQL statements handed to the database in order (the last one may
be the one that failed), whether a transaction was started, whether it was
committed (a started, uncommitted transaction is rolled back by the
deferred `tx.Rollback()`), and whether `db.Close()` was invoked. -/
structure RunResult where
  err : Option String
  executed : List String
  txStarted : Bool
  committed : Bool
  dbClosed : Bool
deriving DecidableEq

/-- A run that failed before any statement was issued. -/
def failRes (e : String) : RunResult := ⟨some e, [], false, false, false⟩

/-- A started transaction was rolled back iff it was not committed
(the deferred `tx.Rollback()` is a no-op after `Commit`). -/
def RunResult.rolledBack (r : RunResult) : Bool := r.txStarted && !r.committed

/-- The inner loop shared by `NewUser`, `changeUserPassword` and
`customDeleteUser`: for each fragment of one raw statement (already split
on `;` by `strutil.ParseArbitraryStringSlice`), trim it, skip it when
empty, re-append the delimiter when `appendSemi` (only `NewUser` does
`query = query + ";"`), bind the parameters and execute; stop at the
first failing execution.  Returns (first error, attempted bound SQL). -/
def execFrags (f : String → Option String) (b : Bindings) (appendSemi : Bool) :
    List String → Option String × List String
  | [] => (none, [])
  | q :: rest =>
    let q := goTrimSpace q
    if q.length = 0 then execFrags f b appendSemi rest
    else
      let q := if appendSemi then q ++ ";" else q
      let bound := parseQuery b q
      match f bound with
      | some e => (some e, [bound])
      | none =>
        let r := execFrags f b appendSemi rest
        (r.1, bound :: r.2)

/-- The outer loop over the raw statement list: each raw statement is
split on `;` (`strutil.ParseArbitraryStringSlice(stmt, ";")`; the
library's base64/JSON fast paths, which no SQL template hits, are not
modelled) and its fragments executed; the loop returns on the first
failure. -/
def execStmts (f : String → Option String) (b : Bindings) (appendSemi : Bool) :
    List String → Option String × List String
  | [] => (none, [])
  | stmt :: rest =>
    let r := execFrags f b appendSemi (goSplitSemi stmt)
    match r.1 with
    | some e => (some e, r.2)
    | none =>
      let r2 := execStmts f b appendSemi rest
      (r2.1, r.2 ++ r2.2)

/-- `isClusterExist`: acquires the connection, issues the cluster probe;
`sql.ErrNoRows` leaves `existCluster` at its zero value `false` and is
not an error; any other scan error propagates. -/
def isClusterExist (env : Env) : Except String Bool :=
  match env.connErr with
  | some e => .error e
  | none =>
    match env.clusterResp with
    | .ok b => .ok b
    | .error .noRows => .ok false
    | .error (.other m) => .error m

/-- `dbplugin.ChangePassword`: the new password and
`Statements.Commands`. -/
structure ChangePassword where
  NewPassword : String
  Commands : List String
deriving DecidableEq

/-- `changeUserPassword`: reject an empty password; acquire the
connection; when the statement set is empty synthesize the default
statement, appending `onCluster` (after a space) when the cluster probe
answers true; run the observational existence pre-check (`sql.ErrNoRows`
is ignored, any other error returns, the scanned value is never read);
begin a transaction, execute all fragments with bindings
`{name, username, password}`, and commit. -/
def changeUserPassword (env : Env) (username : String) (cp : ChangePassword) :
    RunResult :=
  if cp.NewPassword = "" then failRes "missing password"
  else
    match env.connErr with
    | some e => failRes ("unable to get connection: " ++ e)
    | none =>
      let stmtsOrErr : Except String (List String) :=
        if cp.Commands.length = 0 then
          match isClusterExist env with
          | .error e => .error e
          | .ok cl =>
            .ok [if cl then defaultChangePasswordStatement ++ " " ++ onCluster
                 else defaultChangePasswordStatement]
        else .ok cp.Commands
      match stmtsOrErr with
      | .error e => failRes e
      | .ok stmts =>
        match env.userExistsResp username with
        | .error (.other m) => failRes m
        | _ =>
          match env.beginTxErr with
          | some e => failRes ("unable to start transaction: " ++ e)
          | none =>
            let b : Bindings := ⟨username, username, some cp.NewPassword⟩
            let r := execStmts env.execErr b false stmts
            match r.1 with
            | some e => ⟨some ("failed to execute query: " ++ e), r.2, true, false, false⟩
            | none =>
              match env.commitErr with
              | some e => ⟨some e, r.2, true, false, false⟩
              | none => ⟨none, r.2, true, true, false⟩

/-- `dbplugin.UpdateUserRequest`: the username, an optional password
change and an optional expiration change (whose content the plugin never
reads). -/
structure UpdateUserRequest where
  Username : String
  Password : Option ChangePassword
  Expiration : Option Unit
deriving DecidableEq

/-- `UpdateUser`: reject an empty username, reject a request that asks
for no change at all; delegate a password change to
`changeUserPassword`; an expiration-only request appends nothing to the
multierror and returns nil.  (The `go-multierror` wrapper is modelled by
the inner error message itself; nil-ness is preserved exactly.) -/
def UpdateUser (env : Env) (req : UpdateUserRequest) : RunResult :=
  if req.Username = "" then failRes "missing username"
  else if req.Password.isNone && req.Expiration.isNone then
    failRes "no changes requested"
  else
    match req.Password with
    | some cp => changeUserPassword env req.Username cp
    | none => ⟨none, [], false, false, false⟩

/-- `dbplugin.UsernameMetadata` (DisplayName / RoleName). -/
structure UsernameMetadata where
  DisplayName : String
  RoleName : String
deriving DecidableEq

/-- `dbplugin.NewUserRequest`: username metadata, `Statements.Commands`
and the password. -/
structure NewUserRequest where
  UsernameConfig : UsernameMetadata
  Commands : List String
  Password : String
deriving DecidableEq

/-- Result of `NewUser`: the error, the generated username (none on
failure), whether `usernameProducer.Generate` was consulted, and the
execution trace. -/
structure NewUserResult where
  err : Option String
  username : Option String
  usernameRequested : Bool
  executed : List String
  txStarted : Bool
  committed : Bool
deriving DecidableEq

/-- `NewUser`: an empty creation statement set fails with
`dbutil.ErrEmptyCreationStatement` before the username is generated and
before any connection is touched; otherwise generate the username,
acquire the connection, begin a transaction, execute all fragments (with
the delimiter re-appended) under bindings `{name, username, password}`,
and commit, returning the generated username. -/
def NewUser (env : Env) (req : NewUserRequest) : NewUserResult :=
  if req.Commands.length = 0 then
    ⟨some errEmptyCreationStatement, none, false, [], false, false⟩
  else
    match env.usernameGen with
    | .error e => ⟨some e, none, true, [], false, false⟩
    | .ok username =>
      match env.connErr with
      | some e => ⟨some ("unable to get connection: " ++ e), none, true, [], false, false⟩
      | none =>
        match env.beginTxErr with
        | some e => ⟨some ("unable to start transaction: " ++ e), none, true, [], false, false⟩
        | none =>
          let b : Bindings := ⟨username, username, some req.Password⟩
          let r := execStmts env.execErr b true req.Commands
          match r.1 with
          | some e => ⟨some ("failed to execute query: " ++ e), none, true, r.2, true, false⟩
          | none =>
            match env.commitErr with
            | some e => ⟨some e, none, true, r.2, true, false⟩
            | none => ⟨none, some username, true, r.2, true, true⟩

/-- `customDeleteUser`: one transaction over the supplied revocation
statements, bindings `{name, username}` (no password), errors returned
bare, commit at the end. -/
def customDeleteUser (env : Env) (username : String) (revocationStmts : List String) :
    RunResult :=
  match env.connErr with
  | some e => failRes e
  | none =>
    match env.beginTxErr with
    | some e => failRes e
    | none =>
      let b : Bindings := ⟨username, username, none⟩
      let r := execStmts env.execErr b false revocationStmts
      match r.1 with
      | some e => ⟨some e, r.2, true, false, false⟩
      | none =>
        match env.commitErr with
        | some e => ⟨some e, r.2, true, false, false⟩
        | none => ⟨none, r.2, true, true, false⟩

/-- `defaultDeleteUser`: existence pre-check (`sql.ErrNoRows` leaves
`exists` false); an absent user is an idempotent success with no drop
issued; otherwise probe the cluster, issue the single
`DROP USER IF EXISTS "<u>" [ON CLUSTER ...];` via `db.ExecContext`
(outside any transaction), embedding the probe result in a failing
drop's error text, and defer `db.Close()` only on the successful-drop
path (the `defer` is registered after the error return). -/
def defaultDeleteUser (env : Env) (username : String) : RunResult :=
  match env.connErr with
  | some e => failRes e
  | none =>
    match env.userExistsResp username with
    | .error (.other m) => failRes m
    | .error .noRows => ⟨none, [], false, false, false⟩
    | .ok false => ⟨none, [], false, false, false⟩
    | .ok true =>
      match isClusterExist env with
      | .error e => failRes e
      | .ok isCluster =>
        let reqCluster := if isCluster then onCluster else ""
        let q := dropQuery username reqCluster
        match env.execErr q with
        | some e =>
          ⟨some (e ++ ": " ++ (if isCluster then "true" else "false")), [q], false, false, false⟩
        | none => ⟨none, [q], false, false, true⟩

/-- `DeleteUser`: an empty `Statements.Commands` takes the default path,
a non-empty one the custom path. -/
def DeleteUser (env : Env) (username : String) (cmds : List String) : RunResult :=
  if cmds.length = 0 then defaultDeleteUser env username
  else customDeleteUser env username cmds

/-! Specification-level helpers used to state the claims. -/

/-- The executable fragments of one raw statement template: split on the
`;` delimiter, trim each fragment, keep the ones that are non-empty
after trimming. -/
def cleanFrags (s : String) : List String :=
  ((goSplitSemi s).map goTrimSpace).filter (fun q => decide (¬ q.length = 0))

/-- The bound SQL statements a fragment list gives rise to (the
delimiter is re-appended before binding when `appendSemi`). -/
def bindFrag (b : Bindings) (appendSemi : Bool) (q : String) : String :=
  parseQuery b (if appendSemi then q ++ ";" else q)

/-- All bound executable fragments of a raw statement list, in order. -/
def boundFrags (b : Bindings) (appendSemi : Bool) (stmts : List String) : List String :=
  ((stmts.map cleanFrags).flatten).map (bindFrag b appendSemi)

/-- Reference execution of a ready list of bound statements: run them in
order, stop at the first failure, record the attempted ones. -/
def execOutcome (f : String → Option String) : List String → Option String × List String
  | [] => (none, [])
  | q :: rest =>
    match f q with
    | some e => (some e, [q])
    | none =>
      let r := execOutcome f rest
      (r.1, q :: r.2)

/-- A pre-check response the rotation path survives: anything except a
scan error other than `sql.ErrNoRows`. -/
def nonFatal : Except DbErr Bool → Bool
  | .error (.other _) => false
  | _ => true

/-- `secretValues` of the plugin: the administrative password maps to
the redaction marker. -/
def secretValues (adminPassword : String) : List (String × String) :=
  [(adminPassword, "[password]")]

/-- The redaction marker used by `secretValues`. -/
def redactionMarker : String := "[password]"

/-- Modelled from the spec: the error-sanitizing decorator installed by
`New` (`dbplugin.NewDatabaseErrorSanitizerMiddleware(db, db.secretValues)`,
whose replacement loop lives in the Vault SDK outside this repository)
rewrites the text of every outgoing error, replacing each occurrence of
every non-empty secret value with its redaction marker. -/
def sanitize (adminPassword : String) (msg : String) : String :=
  (secretValues adminPassword).foldl
    (fun m kv => if kv.1 = "" then m else goReplaceAll m kv.1 kv.2) msg

/-- The sanitizer applied to an optional error. -/
def sanitizeErr (adminPassword : String) (e : Option String) : Option String :=
  e.map (sanitize adminPassword)

/-- `UpdateUser` as seen across the plugin boundary: the middleware
sanitizes the returned error. -/
def updateUserAtBoundary (adminPassword : String) (env : Env) (req : UpdateUserRequest) :
    RunResult :=
  let r := UpdateUser env req
  ⟨sanitizeErr adminPassword r.err, r.executed, r.txStarted, r.committed, r.dbClosed⟩

/-- `DeleteUser` as seen across the plugin boundary. -/
def deleteUserAtBoundary (adminPassword : String) (env : Env) (username : String)
    (cmds : List String) : RunResult :=
  let r := DeleteUser env username cmds
  ⟨sanitizeErr adminPassword r.err, r.executed, r.txStarted, r.committed, r.dbClosed⟩

/-- `NewUser` as seen across the plugin boundary. -/
def newUserAtBoundary (adminPassword : String) (env : Env) (req : NewUserRequest) :
    NewUserResult :=
  let r := NewUser env req
  ⟨sanitizeErr adminPassword r.err, r.username, r.usernameRequested, r.executed,
    r.txStarted, r.committed⟩

end CHPlugin

namespace CHPlugin

theorem execFrags_eq (f : String → Option String) (b : Bindings) (a : Bool) :
    ∀ l : List String,
      execFrags f b a l =
        execOutcome f (((l.map goTrimSpace).filter
          (fun q => decide (¬ q.length = 0))).map (bindFrag b a))
  | [] => rfl
  | q :: rest => by
    have ih := execFrags_eq f b a rest
    by_cases h : (goTrimSpace q).length = 0
    · simp only [execFrags, if_pos h, ih, List.map_cons, List.filter_cons]
      simp [h]
    · simp only [execFrags, if_neg h, ih, List.map_cons, List.filter_cons]
      have hc : decide (¬ (goTrimSpace q).length = 0) = true := by simp [h]
      rw [hc]
      simp only [List.map_cons]
      cases hf : f (parseQuery b (if a then goTrimSpace q ++ ";" else goTrimSpace q)) <;>
        simp [execOutcome, bindFrag, hf]

theorem execFrags_clean (f : String → Option String) (b : Bindings) (a : Bool) (s : String) :
    execFrags f b a (goSplitSemi s) = execOutcome f ((cleanFrags s).map (bindFrag b a)) :=
  execFrags_eq f b a (goSplitSemi s)

theorem execOutcome_fst_none (f : String → Option String) :
    ∀ l : List String, (execOutcome f l).1 = none ↔ ∀ q ∈ l, f q = none
  | [] => by simp [execOutcome]
  | q :: rest => by
    cases hq : f q with
    | some e => simp [execOutcome, hq]
    | none => simpa [execOutcome, hq] using execOutcome_fst_none f rest

theorem execOutcome_snd_of_none (f : String → Option String) :
    ∀ l : List String, (execOutcome f l).1 = none → (execOutcome f l).2 = l
  | [] => by simp [execOutcome]
  | q :: rest => by
    cases hq : f q with
    | some e => simp [execOutcome, hq]
    | none =>
      intro h
      simp only [execOutcome, hq] at h ⊢
      simpa using execOutcome_snd_of_none f rest h

theorem execOutcome_append_fail (f : String → Option String) :
    ∀ l₁ l₂ : List String, ∀ e : String, (execOutcome f l₁).1 = some e →
      execOutcome f (l₁ ++ l₂) = execOutcome f l₁
  | [], _, e, h => by simp [execOutcome] at h
  | q :: rest, l₂, e, h => by
    cases hq : f q with
    | some e2 => simp [execOutcome, hq]
    | none =>
      simp only [execOutcome, hq] at h
      have ih := execOutcome_append_fail f rest l₂ e h
      simp [List.cons_append, execOutcome, hq, ih]

theorem execOutcome_append_ok (f : String → Option String) :
    ∀ l₁ l₂ : List String, (execOutcome f l₁).1 = none →
      execOutcome f (l₁ ++ l₂) = ((execOutcome f l₂).1, l₁ ++ (execOutcome f l₂).2)
  | [], l₂, _ => by simp [execOutcome]
  | q :: rest, l₂, h => by
    cases hq : f q with
    | some e2 => simp [execOutcome, hq] at h
    | none =>
      simp only [execOutcome, hq] at h
      have ih := execOutcome_append_ok f rest l₂ h
      simp [List.cons_append, execOutcome, hq, ih]

theorem boundFrags_cons (b : Bindings) (a : Bool) (stmt : String) (rest : List String) :
    boundFrags b a (stmt :: rest) =
      (cleanFrags stmt).map (bindFrag b a) ++ boundFrags b a rest := by
  simp [boundFrags]

theorem execStmts_eq (f : String → Option String) (b : Bindings) (a : Bool) :
    ∀ stmts : List String, execStmts f b a stmts = execOutcome f (boundFrags b a stmts)
  | [] => rfl
  | stmt :: rest => by
    have ih := execStmts_eq f b a rest
    rw [boundFrags_cons]
    simp only [execStmts, execFrags_clean f b a stmt, ih]
    cases h : (execOutcome f ((cleanFrags stmt).map (bindFrag b a))).1 with
    | some e =>
      rw [execOutcome_append_fail f _ _ e h]
      conv_rhs => rw [← Prod.mk.eta (p := execOutcome f ((cleanFrags stmt).map (bindFrag b a)))]
      rw [h]
    | none =>
      rw [execOutcome_append_ok f _ _ h, execOutcome_snd_of_none f _ h]

end CHPlugin

namespace CHPlugin

/-- Claim C3: `NewUser` with an empty statement set fails with the
configuration error `dbutil.ErrEmptyCreationStatement`, for any other
inputs; no username is generated and no statement is executed. -/
theorem c3_create_empty_statement_set_fails (env : Env) (req : NewUserRequest)
    (h : req.Commands = []) :
    NewUser env req = ⟨some errEmptyCreationStatement, none, false, [], false, false⟩ := by
  simp [NewUser, h]

theorem c3_create_empty_statement_set_fails_witness :
    NewUser ⟨none, fun _ => .ok true, .ok false, .ok ("v-disp-role"), none, fun _ => none, none⟩
        ⟨⟨"disp", "role"⟩, [], "pw"⟩ =
      ⟨some errEmptyCreationStatement, none, false, [], false, false⟩ :=
  c3_create_empty_statement_set_fails _ _ rfl

/-- Claim C4: default-path deletion of an absent account (the existence
query reports false or no rows) succeeds with no error and issues no
drop statement. -/
theorem c4_default_delete_absent_is_noop (env : Env) (u : String)
    (hc : env.connErr = none)
    (hex : env.userExistsResp u = .ok false ∨ env.userExistsResp u = .error .noRows) :
    DeleteUser env u [] = ⟨none, [], false, false, false⟩ := by
  rcases hex with h | h <;> simp [DeleteUser, defaultDeleteUser, hc, h]

theorem c4_default_delete_absent_is_noop_witness :
    DeleteUser ⟨none, fun _ => .ok false, .ok false, .ok ("g"), none, fun _ => none, none⟩
        "ghost" [] = ⟨none, [], false, false, false⟩ :=
  c4_default_delete_absent_is_noop _ _ rfl (.inl rfl)

/-- Claim C10: a successful default-path deletion of an existing account
(existence query true, drop succeeds) closes the shared database handle
before returning success. -/
theorem c10_default_delete_closes_handle (env : Env) (u : String) (cl : Bool)
    (hc : env.connErr = none)
    (hex : env.userExistsResp u = .ok true)
    (hcl : isClusterExist env = .ok cl)
    (hdrop : env.execErr (dropQuery u (if cl then onCluster else "")) = none) :
    DeleteUser env u [] =
      ⟨none, [dropQuery u (if cl then onCluster else "")], false, false, true⟩ := by
  simp [DeleteUser, defaultDeleteUser, hc, hex, hcl, hdrop]

theorem c10_default_delete_closes_handle_witness :
    DeleteUser ⟨none, fun _ => .ok true, .ok false, .ok ("g"), none, fun _ => none, none⟩
        "bob" [] = ⟨none, [dropQuery "bob" ""], false, false, true⟩ := by
  have h := c10_default_delete_closes_handle
    ⟨none, fun _ => .ok true, .ok false, .ok ("g"), none, fun _ => none, none⟩
    "bob" false rfl rfl rfl rfl
  simpa using h

/-- Claim C7: the cluster probe returns true iff the macro query reports
an entry; a no-rows result is false with no error; any other query error
propagates as a probe failure. -/
theorem c7_cluster_probe_spec (env : Env) (hc : env.connErr = none) :
    (isClusterExist env = .ok true ↔ env.clusterResp = .ok true)
    ∧ (∀ b, env.clusterResp = .ok b → isClusterExist env = .ok b)
    ∧ (env.clusterResp = .error .noRows → isClusterExist env = .ok false)
    ∧ (∀ m, env.clusterResp = .error (.other m) → isClusterExist env = .error m) := by
  refine ⟨?_, ?_, ?_, ?_⟩
  · cases h : env.clusterResp with
    | ok b => simp [isClusterExist, hc, h]
    | error e => cases e <;> simp [isClusterExist, hc, h]
  · intro b h; simp [isClusterExist, hc, h]
  · intro h; simp [isClusterExist, hc, h]
  · intro m h; simp [isClusterExist, hc, h]

theorem c7_cluster_probe_spec_witness :
    isClusterExist ⟨none, fun _ => .ok false, .ok true, .ok ("g"), none, fun _ => none, none⟩
        = .ok true ↔
      (⟨none, fun _ => .ok false, .ok true, .ok ("g"), none, fun _ => none, none⟩ : Env).clusterResp
        = .ok true :=
  (c7_cluster_probe_spec _ rfl).1

/-- Claim C1 (divergence witness): for a rotation with an empty statement
set, when the cluster probe answers true the code appends the cluster
clause after the default statement's embedded `;`, so the splitter turns
it into two executed fragments — the password-change statement WITHOUT
the clause, plus a standalone clause fragment; when the probe answers
false a single clause-free statement is executed. -/
theorem c1_default_rotation_cluster_clause_misplaced :
    (changeUserPassword
        ⟨none, fun _ => .ok true, .ok true, .ok ("g"), none, fun _ => none, none⟩
        "u" ⟨"pw", []⟩).executed =
      ["ALTER USER \"u\" IDENTIFIED BY 'pw'", "ON CLUSTER '{cluster}'"]
    ∧ (changeUserPassword
        ⟨none, fun _ => .ok true, .ok false, .ok ("g"), none, fun _ => none, none⟩
        "u" ⟨"pw", []⟩).executed =
      ["ALTER USER \"u\" IDENTIFIED BY 'pw'"] :=
  ⟨by decide, by decide⟩

end CHPlugin

namespace CHPlugin

/-- Claim C2 counterexample: a rotation request with no new password but
with an expiration change returns success (nil error), not a validation
error — the code only rejects when BOTH password and expiration are
absent. -/
theorem c2_expiration_only_update_succeeds :
    UpdateUser ⟨none, fun _ => .ok true, .ok false, .ok ("g"), none, fun _ => none, none⟩
        ⟨"alice", none, some ()⟩ = ⟨none, [], false, false, false⟩ := by decide

/-- Claim C2 (amended): rotation fails with a validation error when the
username is empty, or when neither a new password nor an expiration
change is supplied, or when a supplied new password is the empty string,
and in each case no statement is executed; a request with no new
password but with an expiration change succeeds without executing any
statement. -/
theorem c2_rotation_validation (env : Env) (req : UpdateUserRequest) :
    (req.Username = "" → UpdateUser env req = failRes "missing username")
    ∧ (req.Username ≠ "" → req.Password = none → req.Expiration = none →
        UpdateUser env req = failRes "no changes requested")
    ∧ (∀ cp, req.Username ≠ "" → req.Password = some cp → cp.NewPassword = "" →
        UpdateUser env req = failRes "missing password")
    ∧ (req.Username ≠ "" → req.Password = none → req.Expiration ≠ none →
        UpdateUser env req = ⟨none, [], false, false, false⟩) := by
  refine ⟨?_, ?_, ?_, ?_⟩
  · intro h; simp [UpdateUser, h]
  · intro h hp he; simp [UpdateUser, h, hp, he]
  · intro cp h hp hcp
    simp [UpdateUser, h, hp, changeUserPassword, hcp]
  · intro h hp he
    simp [UpdateUser, h, hp]
    intro hcon
    exact absurd hcon he

theorem c2_rotation_validation_witness :
    UpdateUser ⟨none, fun _ => .ok true, .ok false, .ok ("g"), none, fun _ => none, none⟩
        ⟨"", some ⟨"p", []⟩, none⟩ = failRes "missing username"
    ∧ UpdateUser ⟨none, fun _ => .ok true, .ok false, .ok ("g"), none, fun _ => none, none⟩
        ⟨"bob", none, none⟩ = failRes "no changes requested"
    ∧ UpdateUser ⟨none, fun _ => .ok true, .ok false, .ok ("g"), none, fun _ => none, none⟩
        ⟨"bob", some ⟨"", []⟩, none⟩ = failRes "missing password" :=
  ⟨(c2_rotation_validation _ _).1 rfl,
   (c2_rotation_validation _ _).2.1 (by decide) rfl rfl,
   (c2_rotation_validation _ _).2.2.1 ⟨"", []⟩ (by decide) rfl rfl⟩

/-- Claim C6: statement splitting — each raw template is split on the
`;` delimiter, fragments are whitespace-trimmed, fragments empty after
trimming are skipped without error; when every execution succeeds the
executed statements are exactly the bound non-empty trimmed fragments,
and the template `"A; ;B;"` yields exactly the two fragments `A` and
`B`. -/
theorem c6_statement_splitting (f : String → Option String) (b : Bindings) (a : Bool)
    (stmts : List String) (hok : ∀ q, f q = none) :
    (execStmts f b a stmts).1 = none
    ∧ (execStmts f b a stmts).2 = boundFrags b a stmts
    ∧ cleanFrags "A; ;B;" = ["A", "B"]
    ∧ (execStmts f b false ["A; ;B;"]).2 = [parseQuery b "A", parseQuery b "B"] := by
  have h1 : (execOutcome f (boundFrags b a stmts)).1 = none :=
    (execOutcome_fst_none f _).mpr (fun q _ => hok q)
  have hcf : cleanFrags "A; ;B;" = ["A", "B"] := by decide
  have h2 : (execOutcome f (boundFrags b false ["A; ;B;"])).1 = none :=
    (execOutcome_fst_none f _).mpr (fun q _ => hok q)
  refine ⟨?_, ?_, hcf, ?_⟩
  · rw [execStmts_eq]; exact h1
  · rw [execStmts_eq]; exact execOutcome_snd_of_none f _ h1
  · rw [execStmts_eq, execOutcome_snd_of_none f _ h2]
    simp [boundFrags, hcf, bindFrag]

theorem c6_statement_splitting_witness :
    (execStmts (fun _ => none) ⟨"u", "u", none⟩ false ["A; ;B;"]).1 = none
    ∧ (execStmts (fun _ => none) ⟨"u", "u", none⟩ false ["A; ;B;"]).2 =
        boundFrags ⟨"u", "u", none⟩ false ["A; ;B;"]
    ∧ cleanFrags "A; ;B;" = ["A", "B"]
    ∧ (execStmts (fun _ => none) ⟨"u", "u", none⟩ false ["A; ;B;"]).2 =
        [parseQuery ⟨"u", "u", none⟩ "A", parseQuery ⟨"u", "u", none⟩ "B"] :=
  c6_statement_splitting (fun _ => none) ⟨"u", "u", none⟩ false ["A; ;B;"] (fun _ => rfl)

theorem execOutcome_first_fail (f : String → Option String) :
    ∀ pre : List String, ∀ q e : String, ∀ post : List String,
      (∀ x ∈ pre, f x = none) → f q = some e →
      execOutcome f (pre ++ q :: post) = (some e, pre ++ [q])
  | [], q, e, post, _, hq => by simp [execOutcome, hq]
  | x :: pre, q, e, post, hpre, hq => by
    have hx : f x = none := hpre x (List.mem_cons_self x pre)
    have ih := execOutcome_first_fail f pre q e post
      (fun y hy => hpre y (List.mem_cons_of_mem x hy)) hq
    simp [execOutcome, hx, ih]

/-- Claim C5: a custom-path deletion whose bound fragment list contains a
failing fragment returns that execution error, executes nothing after
the failing fragment, and rolls its transaction back (it is started but
never committed), leaving the account unchanged. -/
theorem c5_custom_delete_first_failure_rolls_back (env : Env) (u : String)
    (stmts pre post : List String) (q e : String)
    (hne : stmts ≠ [])
    (hc : env.connErr = none) (hb : env.beginTxErr = none)
    (hsplit : boundFrags ⟨u, u, none⟩ false stmts = pre ++ q :: post)
    (hpre : ∀ x ∈ pre, env.execErr x = none)
    (hq : env.execErr q = some e) :
    DeleteUser env u stmts = ⟨some e, pre ++ [q], true, false, false⟩
    ∧ (DeleteUser env u stmts).rolledBack = true := by
  have hrun : execStmts env.execErr ⟨u, u, none⟩ false stmts = (some e, pre ++ [q]) := by
    rw [execStmts_eq, hsplit, execOutcome_first_fail env.execErr pre q e post hpre hq]
  have hmain : DeleteUser env u stmts = ⟨some e, pre ++ [q], true, false, false⟩ := by
    have hlen : ¬ stmts.length = 0 := by
      simpa [List.length_eq_zero] using hne
    simp [DeleteUser, hlen, customDeleteUser, hc, hb, hrun]
  exact ⟨hmain, by rw [hmain]; rfl⟩

theorem c5_custom_delete_first_failure_rolls_back_witness :
    DeleteUser
        ⟨none, fun _ => .ok true, .ok false, .ok ("g"), none,
          (fun s => if s = "B" then some ("boom") else none), none⟩
        "bob" ["A;B;C"] = ⟨some ("boom"), ["A", "B"], true, false, false⟩ :=
  (c5_custom_delete_first_failure_rolls_back
    ⟨none, fun _ => .ok true, .ok false, .ok ("g"), none,
      (fun s => if s = "B" then some ("boom") else none), none⟩
    "bob" ["A;B;C"] ["A"] ["C"] "B" "boom"
    (by decide) rfl rfl (by decide) (by decide) (by decide)).1

end CHPlugin

namespace CHPlugin

theorem nonFatal_cases (r : Except DbErr Bool) (h : nonFatal r = true) :
    r = .error .noRows ∨ ∃ b, r = .ok b := by
  cases r with
  | ok b => exact .inr ⟨b, rfl⟩
  | error e =>
    cases e with
    | noRows => exact .inl rfl
    | other m => simp [nonFatal] at h

theorem changeUserPassword_precheck_congr
    (c : Option String) (cl : Except DbErr Bool) (g : Except String String)
    (bt : Option String) (x : String → Option String) (co : Option String)
    (u₁ u₂ : String → Except DbErr Bool) (username : String) (cp : ChangePassword)
    (h₁ : nonFatal (u₁ username) = true) (h₂ : nonFatal (u₂ username) = true) :
    changeUserPassword ⟨c, u₁, cl, g, bt, x, co⟩ username cp =
      changeUserPassword ⟨c, u₂, cl, g, bt, x, co⟩ username cp := by
  rcases nonFatal_cases _ h₁ with hv₁ | ⟨b₁, hv₁⟩ <;>
    rcases nonFatal_cases _ h₂ with hv₂ | ⟨b₂, hv₂⟩ <;>
    simp [changeUserPassword, isClusterExist, hv₁, hv₂]

/-- Claim C9: the rotation existence pre-check is observational only —
two runs against targets identical except for a non-fatal pre-check
response (user present, absent, or no rows) execute the same statements
and return the same result. -/
theorem c9_precheck_is_observational (e₁ e₂ : Env) (req : UpdateUserRequest)
    (hc : e₁.connErr = e₂.connErr) (hcl : e₁.clusterResp = e₂.clusterResp)
    (hg : e₁.usernameGen = e₂.usernameGen) (hb : e₁.beginTxErr = e₂.beginTxErr)
    (hx : e₁.execErr = e₂.execErr) (hco : e₁.commitErr = e₂.commitErr)
    (h₁ : nonFatal (e₁.userExistsResp req.Username) = true)
    (h₂ : nonFatal (e₂.userExistsResp req.Username) = true) :
    UpdateUser e₁ req = UpdateUser e₂ req := by
  obtain ⟨c₁, u₁, cl₁, g₁, b₁, x₁, co₁⟩ := e₁
  obtain ⟨c₂, u₂, cl₂, g₂, b₂, x₂, co₂⟩ := e₂
  simp only at hc hcl hg hb hx hco h₁ h₂
  subst hc hcl hg hb hx hco
  rcases hp : req.Password with _ | cp
  · simp only [UpdateUser, hp]
  · simp only [UpdateUser, hp]
    by_cases hU : req.Username = ""
    · simp [hU]
    · simp only [if_neg hU]
      exact changeUserPassword_precheck_congr _ _ _ _ _ _ u₁ u₂ req.Username cp h₁ h₂

theorem c9_precheck_is_observational_witness :
    UpdateUser ⟨none, fun _ => .ok true, .ok false, .ok ("g"), none, fun _ => none, none⟩
        ⟨"bob", some ⟨"pw", ["ALTER USER \"{{username}}\" IDENTIFIED BY '{{password}}'"]⟩, none⟩ =
      UpdateUser ⟨none, fun _ => .ok false, .ok false, .ok ("g"), none, fun _ => none, none⟩
        ⟨"bob", some ⟨"pw", ["ALTER USER \"{{username}}\" IDENTIFIED BY '{{password}}'"]⟩, none⟩ :=
  c9_precheck_is_observational
    ⟨none, fun _ => .ok true, .ok false, .ok ("g"), none, fun _ => none, none⟩
    ⟨none, fun _ => .ok false, .ok false, .ok ("g"), none, fun _ => none, none⟩
    ⟨"bob", some ⟨"pw", ["ALTER USER \"{{username}}\" IDENTIFIED BY '{{password}}'"]⟩, none⟩
    rfl rfl rfl rfl rfl rfl rfl rfl

end CHPlugin

namespace CHPlugin

theorem infix_append_decompose {p a b : List Char} (hp : p ≠ []) (h : p <:+: a ++ b) :
    (∃ ch ∈ p, ch ∈ a) ∨ p <:+: b := by
  induction a with
  | nil => exact .inr (by simpa using h)
  | cons x a' ih =>
    rw [List.cons_append, List.infix_cons_iff] at h
    rcases h with h | h
    · left
      refine ⟨x, ?_, List.mem_cons_self x a'⟩
      have hx := List.IsPrefix.head h hp
      simp only [List.head_cons] at hx
      rw [← hx]
      exact List.head_mem hp
    · rcases ih h with ⟨ch, hch, hcha⟩ | h2
      · exact .inl ⟨ch, hch, List.mem_cons_of_mem x hcha⟩
      · exact .inr h2

theorem prefix_replaceAllFuel (p r : List Char)
    (hdisj : ∀ ch ∈ p, ch ∉ r) (hr : r ≠ []) :
    ∀ n : Nat, ∀ s q : List Char, q ≠ [] → (∀ ch ∈ q, ch ∈ p) →
      q <+: replaceAllFuel p r n s → q <+: s
  | 0, s, q => fun _ _ h => h
  | n+1, [], q => by
    intro hq _ h
    rw [replaceAllFuel] at h
    exact absurd (List.prefix_nil.mp h) hq
  | n+1, c :: cs, q => by
    intro hq hqp h
    by_cases hm : p ≠ [] ∧ p.isPrefixOf (c :: cs)
    · rw [replaceAllFuel, if_pos hm] at h
      exfalso
      obtain ⟨ch, q', rfl⟩ : ∃ ch q', q = ch :: q' := by
        cases q with
        | nil => exact absurd rfl hq
        | cons ch q' => exact ⟨ch, q', rfl⟩
      obtain ⟨rh, r', rfl⟩ : ∃ rh r', r = rh :: r' := by
        cases r with
        | nil => exact absurd rfl hr
        | cons rh r' => exact ⟨rh, r', rfl⟩
      rw [List.cons_append, List.cons_prefix_cons] at h
      exact hdisj ch (hqp ch (List.mem_cons_self ch q'))
        (h.1 ▸ List.mem_cons_self rh r')
    · rw [replaceAllFuel, if_neg hm] at h
      obtain ⟨ch, q', rfl⟩ : ∃ ch q', q = ch :: q' := by
        cases q with
        | nil => exact absurd rfl hq
        | cons ch q' => exact ⟨ch, q', rfl⟩
      rw [List.cons_prefix_cons] at h
      rcases h with ⟨rfl, h2⟩
      by_cases hq' : q' = []
      · subst hq'
        exact List.cons_prefix_cons.mpr ⟨rfl, List.nil_prefix⟩
      · have := prefix_replaceAllFuel p r hdisj hr n cs q' hq'
          (fun ch2 hch2 => hqp ch2 (List.mem_cons_of_mem _ hch2)) h2
        exact List.cons_prefix_cons.mpr ⟨rfl, this⟩

theorem not_infix_replaceAllFuel (p r : List Char) (hp : p ≠ []) (hr : r ≠ [])
    (hdisj : ∀ ch ∈ p, ch ∉ r) :
    ∀ n : Nat, ∀ s : List Char, s.length ≤ n → ¬ p <:+: replaceAllFuel p r n s
  | 0, s => by
    intro hlen h
    have hs : s = [] := List.eq_nil_of_length_eq_zero (Nat.le_zero.mp hlen)
    subst hs
    rw [replaceAllFuel] at h
    exact hp (List.infix_nil.mp h)
  | n+1, [] => by
    intro _ h
    rw [replaceAllFuel] at h
    exact hp (List.infix_nil.mp h)
  | n+1, c :: cs => by
    intro hlen h
    by_cases hm : p ≠ [] ∧ p.isPrefixOf (c :: cs)
    · rw [replaceAllFuel, if_pos hm] at h
      rcases infix_append_decompose hp h with ⟨ch, hchp, hchr⟩ | h2
      · exact hdisj ch hchp hchr
      · have hlen2 : ((c :: cs).drop p.length).length ≤ n := by
          have hple : 0 < p.length := List.length_pos.mpr hp
          simp only [List.length_drop, List.length_cons]
          simp only [List.length_cons] at hlen
          omega
        exact not_infix_replaceAllFuel p r hp hr hdisj n _ hlen2 h2
    · rw [replaceAllFuel, if_neg hm] at h
      rw [List.infix_cons_iff] at h
      rcases h with h | h
      · have h' : p <+: replaceAllFuel p r (n+1) (c :: cs) := by
          rw [replaceAllFuel, if_neg hm]
          exact h
        have hpre : p <+: (c :: cs) :=
          prefix_replaceAllFuel p r hdisj hr (n+1) (c :: cs) p hp (fun _ hch => hch) h'
        exact hm ⟨hp, List.isPrefixOf_iff_prefix.mpr hpre⟩
      · have hlen2 : cs.length ≤ n := by
          simp only [List.length_cons] at hlen
          omega
        exact not_infix_replaceAllFuel p r hp hr hdisj n cs hlen2 h

theorem not_infix_replaceAll (p r s : List Char) (hp : p ≠ []) (hr : r ≠ [])
    (hdisj : ∀ ch ∈ p, ch ∉ r) : ¬ p <:+: replaceAll p r s :=
  not_infix_replaceAllFuel p r hp hr hdisj s.length s (Nat.le_refl _)

end CHPlugin

namespace CHPlugin

theorem string_data_ne_nil (p : String) (hp : p ≠ "") : p.data ≠ [] := by
  intro h
  apply hp
  cases p
  simp_all

theorem sanitize_eq_replace (p msg : String) (hp : p ≠ "") :
    sanitize p msg = goReplaceAll msg p "[password]" := by
  simp [sanitize, secretValues, hp]

theorem sanitize_no_password (p : String) (hp : p ≠ "")
    (hdisj : ∀ c ∈ p.data, c ∉ redactionMarker.data) (msg : String) :
    ¬ p.data <:+: (sanitize p msg).data := by
  rw [sanitize_eq_replace p msg hp]
  exact not_infix_replaceAll p.data redactionMarker.data msg.data
    (string_data_ne_nil p hp) (by decide) hdisj

theorem sanitizeErr_no_password (p : String) (hp : p ≠ "")
    (hdisj : ∀ c ∈ p.data, c ∉ redactionMarker.data) (o : Option String) (e : String)
    (h : sanitizeErr p o = some e) : ¬ p.data <:+: e.data := by
  cases o with
  | none => simp [sanitizeErr] at h
  | some e₀ =>
    have he : sanitize p e₀ = e := by simpa [sanitizeErr] using h
    rw [← he]
    exact sanitize_no_password p hp hdisj e₀

/-- Claim C8 counterexample: redaction is substring replacement, so a
password that overlaps the redaction marker's own text still crosses the
plugin boundary.  With administrative password "d]" and a driver-level
connection error whose text ends in that password, the sanitizer does
perform its replacement, yet the boundary error still contains the
literal password verbatim — as the tail of the marker "[password]"
itself — refuting the claim's promise for every code path. -/
theorem c8_password_overlapping_marker_survives :
    (updateUserAtBoundary "d]"
        ⟨some ("auth failed for d]"), fun _ => .ok true, .ok false, .ok ("g"), none,
          fun _ => none, none⟩
        ⟨"bob", some ⟨"pw", []⟩, none⟩).err =
      some ("unable to get connection: auth failed for [password]")
    ∧ ("d]" : String).data <:+:
        ("unable to get connection: auth failed for [password]" : String).data
    ∧ ("d]" : String).data <:+:
        ("unable to get connection: auth failed for d]" : String).data :=
  ⟨by decide, by decide, by decide⟩

/-- Claim C8 (amended): every operation error crossing the plugin
boundary is passed through the sanitizer, which replaces every
occurrence of the non-empty administrative password with the redaction
marker, on every code path and for whatever driver-level error strings
the environment produces; this makes the password absent from the
outgoing error text whenever the password shares no character with the
marker, while a password overlapping the marker's own text can reappear
inside the marker. -/
theorem c8_boundary_errors_redacted (p : String) (hp : p ≠ "") :
    (∀ msg, sanitize p msg = goReplaceAll msg p redactionMarker)
    ∧ (∀ env req, (updateUserAtBoundary p env req).err =
        sanitizeErr p (UpdateUser env req).err)
    ∧ (∀ env u cmds, (deleteUserAtBoundary p env u cmds).err =
        sanitizeErr p (DeleteUser env u cmds).err)
    ∧ (∀ env req, (newUserAtBoundary p env req).err =
        sanitizeErr p (NewUser env req).err)
    ∧ ((∀ c ∈ p.data, c ∉ redactionMarker.data) →
        (∀ msg, ¬ p.data <:+: (sanitize p msg).data)
        ∧ (∀ env req e, (updateUserAtBoundary p env req).err = some e →
            ¬ p.data <:+: e.data)
        ∧ (∀ env u cmds e, (deleteUserAtBoundary p env u cmds).err = some e →
            ¬ p.data <:+: e.data)
        ∧ (∀ env req e, (newUserAtBoundary p env req).err = some e →
            ¬ p.data <:+: e.data)) := by
  refine ⟨fun msg => sanitize_eq_replace p msg hp, fun _ _ => rfl, fun _ _ _ => rfl,
    fun _ _ => rfl, fun hdisj => ⟨sanitize_no_password p hp hdisj, ?_, ?_, ?_⟩⟩
  · intro env req e h
    exact sanitizeErr_no_password p hp hdisj (UpdateUser env req).err e h
  · intro env u cmds e h
    exact sanitizeErr_no_password p hp hdisj (DeleteUser env u cmds).err e h
  · intro env req e h
    exact sanitizeErr_no_password p hp hdisj (NewUser env req).err e h

theorem c8_boundary_errors_redacted_witness :
    sanitize "12345" "Code: 516. Authentication failed: password 12345 is incorrect" =
      goReplaceAll "Code: 516. Authentication failed: password 12345 is incorrect"
        "12345" redactionMarker
    ∧ ¬ ("12345" : String).data <:+:
        (sanitize "12345" "Code: 516. Authentication failed: password 12345 is incorrect").data :=
  ⟨(c8_boundary_errors_redacted "12345" (by decide)).1
      "Code: 516. Authentication failed: password 12345 is incorrect",
   ((c8_boundary_errors_redacted "12345" (by decide)).2.2.2.2 (by decide)).1
      "Code: 516. Authentication failed: password 12345 is incorrect"⟩

end CHPlugin
